import Mathlib

/-!
Verification of the MT5 container lifecycle supervisor
(src/scripts/mt5_container_manager.py).

The script is a single-actor supervisor built around shell commands to the
Docker runtime.  We embed it shallowly: every external effect is decided by a
pure oracle (a `World`), and every method of `MT5ContainerManager` becomes a
pure Lean function returning its boolean result together with the trace of
observable events it performed (runtime commands issued, sleeps, the restart
notification POST, TCP probes).  Machine behaviour such as command exit codes,
timeouts and socket errors is part of the oracle, so theorems quantify over
every possible behaviour of the runtime.
-/

namespace MT5

/-- Outcome of launching one external shell command: what `subprocess.run`
(mt5_container_manager.py lines 93-104) can do — finish with an exit code and
captured output, exceed the fixed 30-second timeout (`subprocess.TimeoutExpired`,
line 105), or fail with some other exception while spawning (line 108). -/
inductive CmdOutcome where
  | completed (returncode : Int) (stdout : String) (stderr : String)
  | timedOut
  | raised (msg : String)
  deriving Repr, DecidableEq

/-- Outcome of the TCP probe in `health_check` (lines 353-356): either
`sock.connect_ex` returned an error code (0 on success), or some exception was
raised during the probe (for example a name-resolution failure). -/
inductive ConnectOutcome where
  | result (code : Int)
  | raised (msg : String)
  deriving Repr, DecidableEq

/-- The runtime commands the manager issues, one constructor per docker
invocation in the source (the string each constructor renders to is the
f-string at the cited line):
* `version` — `docker version --format ...` (line 79);
* `ps n` — `docker ps --filter name=n --format ...` (line 120);
* `start n` — `docker start n` (line 150);
* `stop n` — `docker stop n` (line 210);
* `restart n` — `docker restart n` (line 233);
* `rmF n` — `docker rm -f n` (line 170);
* `runNew ...` — the `docker run -d --name n -p ... -e ... -v ... --restart
  ... image` command assembled at lines 173-183, carried structurally as
  (name, published port pairs host:container, environment pairs, volume,
  restart policy, image). -/
inductive Cmd where
  | version
  | ps (filterName : String)
  | start (name : String)
  | stop (name : String)
  | restart (name : String)
  | rmF (name : String)
  | runNew (name : String) (ports : List (String × String))
      (env : List (String × String)) (volume : String)
      (restartPolicy : String) (image : String)
  deriving Repr, DecidableEq

/-- Observable events of one manager operation: a runtime command issued
through `run_command`, a `time.sleep` of the given number of seconds, the
restart notification POST of `notify_restart` (lines 286-310), or the TCP
probe of `health_check` with its host, port and connect timeout in seconds. -/
inductive Event where
  | exec (c : Cmd)
  | sleep (seconds : Nat)
  | notify
  | tcpProbe (host : String) (port : Int) (timeoutSecs : Nat)
  deriving Repr, DecidableEq

/-- The mutable attributes of `MT5ContainerManager` (lines 51-63) that the
claims depend on: the four configuration strings read from the environment,
the cached availability fact `docker_available`, and `last_restart`.  Time is
modelled as a natural number of seconds. -/
structure Manager where
  container_name : String
  mt5_image : String
  mt5_port : String
  mt5_host : String
  docker_available : Bool
  last_restart : Nat
  deriving Repr, DecidableEq

/-- The oracle for all external behaviour during one operation: the outcome of
each runtime command, the outcome of the TCP probe, and the two VNC credential
environment variables read at container-creation time (lines 178-179). -/
structure World where
  exec : Cmd → CmdOutcome
  connect : ConnectOutcome
  vnc_user : String
  vnc_pass : String

/-- `self.restart_interval = 12 * 3600` (line 57). -/
def restart_interval : Nat := 12 * 3600

/-- `self.health_check_interval = 5 * 60` (line 58). -/
def health_check_interval : Nat := 5 * 60

/-- Result triple of `run_command` (lines 90-110): success flag, captured
stdout, captured stderr. -/
structure CommandResult where
  success : Bool
  stdout : String
  stderr : String
  deriving Repr, DecidableEq

/-- Result of a manager operation: its boolean return value and the events it
performed. -/
structure OpResult where
  ok : Bool
  events : List Event
  deriving Repr, DecidableEq

/-- Split a character list at every occurrence of `sep`, keeping empty
segments, like Python str.split with an explicit separator: splitting the
empty list yields one empty segment, as `"".split(chr) == [""]`. -/
def splitOnChar (sep : Char) : List Char → List (List Char)
  | [] => [[]]
  | c :: cs =>
    let rest := splitOnChar sep cs
    if c = sep then [] :: rest
    else
      match rest with
      | r :: rs => (c :: r) :: rs
      | [] => [[c]]

/-- Python str.strip() as used at line 124: remove leading and trailing
whitespace characters. -/
def pyStrip (s : String) : String :=
  ⟨((s.data.dropWhile Char.isWhitespace).reverse.dropWhile
      Char.isWhitespace).reverse⟩

/-- Python str.split of line 124 on the newline separator. -/
def splitNewlines (s : String) : List String :=
  (splitOnChar '\n' s.data).map fun cs => ⟨cs⟩

/-- Value of a non-empty all-digit character list, none otherwise. -/
def parseDigits (cs : List Char) : Option Nat :=
  match cs with
  | [] => none
  | _ =>
    if cs.all (fun c => c.isDigit) then
      some (cs.foldl (fun n c => n * 10 + (c.toNat - 48)) 0)
    else none

/-- Python int(...) applied to the configured port string at line 355: an
optional sign followed by at least one digit parses to that integer; any
other string raises ValueError, modelled as none. -/
def parsePort (s : String) : Option Int :=
  match s.toList with
  | '-' :: cs => (parseDigits cs).map (fun n => -(n : Int))
  | cs => (parseDigits cs).map (fun n => (n : Int))

/-- `MT5ContainerManager.run_command` (lines 90-110), `capture_output=True`
path as used by every caller: a completed process yields
`(returncode == 0, stdout, stderr)`; `subprocess.TimeoutExpired` is caught and
yields `(False, "", "Command timed out")`; any other exception is caught and
yields `(False, "", str(e))`.  The function never raises. -/
def run_command (w : World) (c : Cmd) : CommandResult :=
  match w.exec c with
  | .completed rc out err => ⟨rc == 0, out, err⟩
  | .timedOut => ⟨false, "", "Command timed out"⟩
  | .raised msg => ⟨false, "", msg⟩

/-- `MT5ContainerManager.is_container_running` (lines 112-134): if Docker is
unavailable return False without issuing anything; otherwise run
`docker ps --filter name=... --format ...`; on success split the stripped
stdout on newlines and test exact membership of the container name
(`self.container_name in running_containers`, line 125); on failure return
False. -/
def is_container_running (m : Manager) (w : World) : OpResult :=
  if m.docker_available = false then ⟨false, []⟩
  else
    let r := run_command w (.ps m.container_name)
    if r.success then
      ⟨(splitNewlines (pyStrip r.stdout)).contains m.container_name,
        [Event.exec (.ps m.container_name)]⟩
    else
      ⟨false, [Event.exec (.ps m.container_name)]⟩

/-- The `docker run` command assembled at lines 173-183: container name,
hard-coded published ports `-p 3001:3000 -p 8002:8001`, environment
`CUSTOM_USER`/`PASSWORD` from the `MT5_VNC_USER`/`MT5_VNC_PASSWORD`
environment variables, the volume mount, restart policy `unless-stopped`, and
the configured image `self.mt5_image`. -/
def create_run_command (m : Manager) (w : World) : Cmd :=
  .runNew m.container_name [("3001", "3000"), ("8002", "8001")]
    [("CUSTOM_USER", w.vnc_user), ("PASSWORD", w.vnc_pass)]
    "$(pwd)/mt5_data:/config" "unless-stopped" m.mt5_image

/-- `MT5ContainerManager._create_and_run_container` (lines 164-196): first
`docker rm -f` the name, ignoring the result (line 170), then issue the
`docker run` command; the return value is the success of the `docker run`. -/
def create_and_run_container (m : Manager) (w : World) : OpResult :=
  let _rm := run_command w (.rmF m.container_name)
  let r := run_command w (create_run_command m w)
  ⟨r.success, [Event.exec (.rmF m.container_name),
               Event.exec (create_run_command m w)]⟩

/-- `MT5ContainerManager.start_container` (lines 136-162): guard on
availability; True if already running; otherwise `docker start` the existing
container; if that fails, fall back to `_create_and_run_container`. -/
def start_container (m : Manager) (w : World) : OpResult :=
  if m.docker_available = false then ⟨false, []⟩
  else
    let probe := is_container_running m w
    if probe.ok then ⟨true, probe.events⟩
    else
      let r := run_command w (.start m.container_name)
      let evs := probe.events ++ [Event.exec (.start m.container_name)]
      if r.success then ⟨true, evs⟩
      else
        let created := create_and_run_container m w
        ⟨created.ok, evs ++ created.events⟩

/-- `MT5ContainerManager.stop_container` (lines 198-221): guard on
availability; True if not running (idempotent stop, lines 205-207); otherwise
`docker stop` and return its success. -/
def stop_container (m : Manager) (w : World) : OpResult :=
  if m.docker_available = false then ⟨false, []⟩
  else
    let probe := is_container_running m w
    if probe.ok = false then ⟨true, probe.events⟩
    else
      let r := run_command w (.stop m.container_name)
      ⟨r.success, probe.events ++ [Event.exec (.stop m.container_name)]⟩

/-- `MT5ContainerManager.health_check` (lines 345-367): if the container is
not running, return False without the TCP probe (lines 347-349).  Otherwise
probe `(self.mt5_host, int(self.mt5_port))` with a 5-second connect timeout
(lines 353-356); `int(...)` failing to parse the configured port raises inside
the `try`, is caught at line 365 and yields False (and no socket is opened);
`connect_ex` returning 0 means healthy, any other code or an exception during
the probe means unhealthy. -/
def health_check (m : Manager) (w : World) : OpResult :=
  let probe := is_container_running m w
  if probe.ok = false then ⟨false, probe.events⟩
  else
    match parsePort m.mt5_port with
    | none => ⟨false, probe.events⟩
    | some port =>
      let evs := probe.events ++ [Event.tcpProbe m.mt5_host port 5]
      match w.connect with
      | .result code => ⟨code == 0, evs⟩
      | .raised _ => ⟨false, evs⟩

/-- Result of a restart operation: boolean return value, events, and the
manager state afterwards (`last_restart` may have been written). -/
structure RestartResult where
  ok : Bool
  events : List Event
  manager : Manager
  deriving Repr, DecidableEq

/-- `MT5ContainerManager._manual_restart` (lines 252-280), with `t` the value
`datetime.now()` takes at line 273: stop; on failure return False; sleep 5;
start; on failure return False; sleep 30 (settle delay); notify; set
`last_restart`; return True. -/
def manual_restart (m : Manager) (w : World) (t : Nat) : RestartResult :=
  let stopped := stop_container m w
  if stopped.ok = false then ⟨false, stopped.events, m⟩
  else
    let started := start_container m w
    let evs := stopped.events ++ [Event.sleep 5] ++ started.events
    if started.ok = false then ⟨false, evs, m⟩
    else
      ⟨true, evs ++ [Event.sleep 30, Event.notify],
        { m with last_restart := t }⟩

/-- `MT5ContainerManager.restart_container` (lines 223-250), with `t` the
value `datetime.now()` takes when `last_restart` is written: guard on
availability; `docker restart`; on success sleep 30 (settle delay), notify,
set `last_restart` and return True (lines 235-242); on failure fall back to
`_manual_restart` (line 246). -/
def restart_container (m : Manager) (w : World) (t : Nat) : RestartResult :=
  if m.docker_available = false then ⟨false, [], m⟩
  else
    let r := run_command w (.restart m.container_name)
    let ev0 := [Event.exec (.restart m.container_name)]
    if r.success then
      ⟨true, ev0 ++ [Event.sleep 30, Event.notify],
        { m with last_restart := t }⟩
    else
      let fb := manual_restart m w t
      ⟨fb.ok, ev0 ++ fb.events, fb.manager⟩

/-- `MT5ContainerManager.restart_container_direct` (lines 282-284) simply
delegates to `restart_container`. -/
def restart_container_direct (m : Manager) (w : World) (t : Nat) :
    RestartResult :=
  restart_container m w t

/-- `MT5ContainerManager.restart_now` (lines 397-401): calls
`restart_container_direct` and then `return True` unconditionally — the
result of the restart is discarded. -/
def restart_now (m : Manager) (w : World) (t : Nat) : OpResult :=
  let r := restart_container_direct m w t
  ⟨true, r.events⟩

/-- The exit code computed by `main` in restart-now mode (lines 414-416):
`sys.exit(0 if success else 1)` where `success = manager.restart_now()`. -/
def restart_now_exit_code (m : Manager) (w : World) (t : Nat) : Nat :=
  if (restart_now m w t).ok then 0 else 1

/-- Which trigger caused a restart in a monitor tick: the 12-hour schedule
(line 376) or a failed health check (line 382). -/
inductive Trigger where
  | scheduled
  | healthTriggered
  deriving Repr, DecidableEq

/-- Result of one monitor tick: the manager state afterwards, which trigger
(if any) caused a restart, whether `health_check` was evaluated this tick, and
the events performed. -/
structure TickResult where
  manager : Manager
  trigger : Option Trigger
  healthEvaluated : Bool
  events : List Event
  deriving Repr, DecidableEq

/-- One iteration of `MT5ContainerManager.monitor_loop` (lines 371-388) on its
normal path, with `now` the value of `current_time` (line 373) and `rt` the
time at which a restart operation itself would stamp `last_restart`.  If
`now - last_restart >= restart_interval` the scheduled branch restarts and
then sets `last_restart = current_time` (lines 376-379) without evaluating the
health check (the health check sits in the `elif`, line 382); otherwise if the
health check fails the recovery branch restarts and sets
`last_restart = current_time` (lines 382-385); otherwise nothing happens.
Every branch ends with `time.sleep(self.health_check_interval)` (line 388).
Elapsed time uses truncated subtraction, which agrees with the source whenever
`now` is at or after `last_restart`. -/
def monitor_tick (m : Manager) (w : World) (now rt : Nat) : TickResult :=
  if restart_interval ≤ now - m.last_restart then
    let r := restart_container_direct m w rt
    ⟨{ r.manager with last_restart := now }, some .scheduled, false,
      r.events ++ [Event.sleep health_check_interval]⟩
  else
    let hc := health_check m w
    if hc.ok = false then
      let r := restart_container_direct m w rt
      ⟨{ r.manager with last_restart := now }, some .healthTriggered, true,
        hc.events ++ r.events ++ [Event.sleep health_check_interval]⟩
    else
      ⟨m, none, true, hc.events ++ [Event.sleep health_check_interval]⟩

/-- The host-side published ports of every container-creation command in an
event trace, in order. -/
def publishedHostPorts (evs : List Event) : List String :=
  evs.foldr (fun e acc =>
    match e with
    | .exec (.runNew _ ports _ _ _ _) => ports.map Prod.fst ++ acc
    | _ => acc) []

/-- A manager with the default configuration of `__init__` (lines 53-56) and
an available runtime. -/
def defaultManager : Manager :=
  { container_name := "mt5_user"
    mt5_image := "gmag11/metatrader5_vnc"
    mt5_port := "8002"
    mt5_host := "localhost"
    docker_available := true
    last_restart := 0 }

end MT5

namespace MT5

/-- A world where every command completes successfully with empty output and
the TCP probe accepts. -/
def wIdle : World :=
  { exec := fun _ => .completed 0 "" ""
    connect := .result 0
    vnc_user := "admin"
    vnc_pass := "admin" }

/-- A world where the runtime lists the default container as running, every
command succeeds, and the TCP probe accepts. -/
def wRunning : World :=
  { exec := fun c =>
      match c with
      | .ps _ => .completed 0 "mt5_user" ""
      | _ => .completed 0 "" ""
    connect := .result 0
    vnc_user := "admin"
    vnc_pass := "admin" }

/-- A world where every command times out. -/
def wTimeout : World :=
  { exec := fun _ => .timedOut
    connect := .result 0
    vnc_user := "admin"
    vnc_pass := "admin" }

/-- The default manager after the availability probe failed. -/
def mUnavail : Manager := { defaultManager with docker_available := false }

/-- The default manager with a non-numeric configured port. -/
def mBadPort : Manager := { defaultManager with mt5_port := "mt5" }

/-- Claim C1: the spec requires restart-now mode to exit 0 exactly when the
restart operation reported success, and in particular to exit non-zero when
the runtime is unavailable.  The code violates this: with the runtime
unavailable the restart operation reports failure, yet `restart_now` returns
True unconditionally (line 401), so the exit code computed at line 416 is 0.
The dead `else 1` branch of `sys.exit(0 if success else 1)` shows the spec is
the intent and line 401 the slip. -/
theorem restart_now_exit_code_bug :
    (restart_container mUnavail wIdle 0).ok = false ∧
    restart_now mUnavail wIdle 0 = ⟨true, []⟩ ∧
    restart_now_exit_code mUnavail wIdle 0 = 0 := by decide

/-- Claim C6: when the startup availability probe returned false, every
subsequent start, stop, restart and health-check invocation returns
failure/unhealthy immediately, with an empty event trace — no runtime command
is issued and no TCP probe, sleep or notification happens. -/
theorem unavailable_guard (m : Manager) (w : World) (t : Nat)
    (h : m.docker_available = false) :
    is_container_running m w = ⟨false, []⟩ ∧
    start_container m w = ⟨false, []⟩ ∧
    stop_container m w = ⟨false, []⟩ ∧
    restart_container m w t = ⟨false, [], m⟩ ∧
    health_check m w = ⟨false, []⟩ := by
  refine ⟨?_, ?_, ?_, ?_, ?_⟩ <;>
    simp [is_container_running, start_container, stop_container,
      restart_container, health_check, h]

/-- Witness for `unavailable_guard` at the default configuration with the
availability flag false. -/
theorem unavailable_guard_witness :
    mUnavail.docker_available = false ∧
    (is_container_running mUnavail wIdle = ⟨false, []⟩ ∧
     start_container mUnavail wIdle = ⟨false, []⟩ ∧
     stop_container mUnavail wIdle = ⟨false, []⟩ ∧
     restart_container mUnavail wIdle 0 = ⟨false, [], mUnavail⟩ ∧
     health_check mUnavail wIdle = ⟨false, []⟩) :=
  ⟨by decide, unavailable_guard mUnavail wIdle 0 (by decide)⟩

/-- Claim C8: the runtime gateway never raises — `run_command` is a total
function into `CommandResult` — and every failing outcome (non-zero exit,
timeout, spawn error) is returned as a result whose success flag is false; a
timeout in particular yields the failure result with error text
"Command timed out". -/
theorem run_command_failure (w : World) (c : Cmd)
    (h : ∀ out err, w.exec c ≠ CmdOutcome.completed 0 out err) :
    (run_command w c).success = false ∧
    (w.exec c = CmdOutcome.timedOut →
      run_command w c = ⟨false, "", "Command timed out"⟩) ∧
    (∀ msg, w.exec c = CmdOutcome.raised msg →
      run_command w c = ⟨false, "", msg⟩) := by
  unfold run_command
  cases hw : w.exec c with
  | completed rc out err =>
    have hrc : rc ≠ 0 := fun h0 => h out err (h0 ▸ hw)
    refine ⟨by simp [hrc], fun hx => CmdOutcome.noConfusion hx,
      fun msg hx => CmdOutcome.noConfusion hx⟩
  | timedOut =>
    exact ⟨rfl, fun _ => rfl, fun msg hx => CmdOutcome.noConfusion hx⟩
  | raised msg =>
    refine ⟨rfl, fun hx => CmdOutcome.noConfusion hx, fun msg2 hx => ?_⟩
    injection hx with hmsg
    rw [hmsg]

/-- Witness for `run_command_failure` on a world where every command exceeds
the 30-second limit. -/
theorem run_command_failure_witness :
    (∀ out err, wTimeout.exec Cmd.version ≠ CmdOutcome.completed 0 out err) ∧
    (run_command wTimeout Cmd.version).success = false ∧
    run_command wTimeout Cmd.version = ⟨false, "", "Command timed out"⟩ := by
  have h : ∀ out err,
      wTimeout.exec Cmd.version ≠ CmdOutcome.completed 0 out err :=
    fun out err hx => CmdOutcome.noConfusion hx
  have H := run_command_failure wTimeout Cmd.version h
  exact ⟨h, H.1, H.2.1 rfl⟩

/-- Claim C10: the health check is a total boolean function — it never raises
— and both exception paths inside its `try` block are converted to an
unhealthy result: a configured port that does not parse as an integer, and an
exception raised during the TCP probe. -/
theorem health_check_never_raises (m : Manager) (w : World)
    (h : parsePort m.mt5_port = none ∨
         ∃ msg, w.connect = ConnectOutcome.raised msg) :
    (health_check m w).ok = false := by
  by_cases hrun : (is_container_running m w).ok = false
  · simp [health_check, hrun]
  · rcases h with hp | ⟨msg, hc⟩
    · simp [health_check, hrun, hp]
    · cases hpi : parsePort m.mt5_port with
      | none => simp [health_check, hrun, hpi]
      | some p => simp [health_check, hrun, hpi, hc]

/-- Witness for `health_check_never_raises`: the default configuration with
port string "mt5", in a world where the container is listed as running, so
the integer-conversion failure is actually reached. -/
theorem health_check_never_raises_witness :
    parsePort mBadPort.mt5_port = none ∧
    (health_check mBadPort wRunning).ok = false :=
  ⟨by decide, health_check_never_raises mBadPort wRunning (Or.inl (by decide))⟩

end MT5

namespace MT5

/-- With an available runtime, the container listing issues exactly the one
`docker ps` command, whatever its outcome. -/
theorem is_container_running_events_avail (m : Manager) (w : World)
    (h : m.docker_available = true) :
    (is_container_running m w).events =
      [Event.exec (Cmd.ps m.container_name)] := by
  have h2 : ¬ m.docker_available = false := by simp [h]
  unfold is_container_running
  rw [if_neg h2]
  by_cases hs : (run_command w (Cmd.ps m.container_name)).success = true <;>
    simp [hs]

/-- Every event of `is_container_running` is a runtime command. -/
theorem is_container_running_mem_exec (m : Manager) (w : World) :
    ∀ e ∈ (is_container_running m w).events, ∃ c, e = Event.exec c := by
  intro e he
  simp only [is_container_running] at he
  split at he
  · simp at he
  · split at he <;> simp at he <;> exact ⟨_, he⟩

/-- Every event of `_create_and_run_container` is a runtime command. -/
theorem create_mem_exec (m : Manager) (w : World) :
    ∀ e ∈ (create_and_run_container m w).events, ∃ c, e = Event.exec c := by
  intro e he
  simp only [create_and_run_container] at he
  simp at he
  rcases he with h | h <;> exact ⟨_, h⟩

/-- Every event of `start_container` is a runtime command: the method issues
no sleep, no notification and no TCP probe. -/
theorem start_mem_exec (m : Manager) (w : World) :
    ∀ e ∈ (start_container m w).events, ∃ c, e = Event.exec c := by
  intro e he
  simp only [start_container] at he
  split at he
  · simp at he
  · split at he
    · exact is_container_running_mem_exec m w e he
    · split at he
      · rcases List.mem_append.mp he with h | h
        · exact is_container_running_mem_exec m w e h
        · simp at h; exact ⟨_, h⟩
      · rcases List.mem_append.mp he with h | h
        · rcases List.mem_append.mp h with h2 | h2
          · exact is_container_running_mem_exec m w e h2
          · simp at h2; exact ⟨_, h2⟩
        · exact create_mem_exec m w e h

/-- Every event of `stop_container` is a runtime command. -/
theorem stop_mem_exec (m : Manager) (w : World) :
    ∀ e ∈ (stop_container m w).events, ∃ c, e = Event.exec c := by
  intro e he
  simp only [stop_container] at he
  split at he
  · simp at he
  · split at he
    · exact is_container_running_mem_exec m w e he
    · rcases List.mem_append.mp he with h | h
      · exact is_container_running_mem_exec m w e h
      · simp at h; exact ⟨_, h⟩

/-- Claim C9: with an available runtime, stopping a container that is not
listed as running reports success with only the listing in its trace — no
`docker stop` is issued — and starting a container that is listed as running
reports success with only the listing in its trace — no `docker start` is
issued. -/
theorem stop_start_idempotent (m : Manager) (w1 w2 : World)
    (havail : m.docker_available = true)
    (hstopped : (is_container_running m w1).ok = false)
    (hrunning : (is_container_running m w2).ok = true) :
    stop_container m w1 = ⟨true, (is_container_running m w1).events⟩ ∧
    Event.exec (Cmd.stop m.container_name) ∉ (stop_container m w1).events ∧
    start_container m w2 = ⟨true, (is_container_running m w2).events⟩ ∧
    Event.exec (Cmd.start m.container_name) ∉ (start_container m w2).events := by
  have h1 : stop_container m w1 = ⟨true, (is_container_running m w1).events⟩ := by
    simp [stop_container, havail, hstopped]
  have h2 : start_container m w2 = ⟨true, (is_container_running m w2).events⟩ := by
    simp [start_container, havail, hrunning]
  refine ⟨h1, ?_, h2, ?_⟩
  · rw [h1, is_container_running_events_avail m w1 havail]
    simp
  · rw [h2, is_container_running_events_avail m w2 havail]
    simp

/-- Witness for `stop_start_idempotent`: default configuration; in `wIdle`
the listing reports nothing running, in `wRunning` it reports the container
running. -/
theorem stop_start_idempotent_witness :
    defaultManager.docker_available = true ∧
    (is_container_running defaultManager wIdle).ok = false ∧
    (is_container_running defaultManager wRunning).ok = true ∧
    (stop_container defaultManager wIdle =
      ⟨true, (is_container_running defaultManager wIdle).events⟩ ∧
     Event.exec (Cmd.stop defaultManager.container_name) ∉
       (stop_container defaultManager wIdle).events ∧
     start_container defaultManager wRunning =
      ⟨true, (is_container_running defaultManager wRunning).events⟩ ∧
     Event.exec (Cmd.start defaultManager.container_name) ∉
       (start_container defaultManager wRunning).events) :=
  ⟨by decide, by decide, by decide,
    stop_start_idempotent defaultManager wIdle wRunning (by decide)
      (by decide) (by decide)⟩

/-- Claim C7: assuming the runtime is available and the listing command
completes with exit status 0 and output `out`, the health check is healthy
exactly when the configured name is an exact member of the newline-split
stripped output and the TCP probe to the parsed configured port reported 0;
when the name is not a member, the check returns unhealthy with no TCP probe
in its trace; when the probe is reached it targets the configured host and
port with the 5-second connect timeout. -/
theorem health_check_characterized (m : Manager) (w : World)
    (out err : String)
    (havail : m.docker_available = true)
    (hps : w.exec (Cmd.ps m.container_name) = CmdOutcome.completed 0 out err) :
    ((health_check m w).ok = true ↔
      ((splitNewlines (pyStrip out)).contains m.container_name = true ∧
       ∃ p, parsePort m.mt5_port = some p ∧
         w.connect = ConnectOutcome.result 0)) ∧
    ((splitNewlines (pyStrip out)).contains m.container_name = false →
      health_check m w = ⟨false, [Event.exec (Cmd.ps m.container_name)]⟩) ∧
    (∀ p, parsePort m.mt5_port = some p →
      (splitNewlines (pyStrip out)).contains m.container_name = true →
      (health_check m w).events =
        [Event.exec (Cmd.ps m.container_name),
         Event.tcpProbe m.mt5_host p 5]) := by
  have hicr : is_container_running m w =
      ⟨(splitNewlines (pyStrip out)).contains m.container_name,
        [Event.exec (Cmd.ps m.container_name)]⟩ := by
    simp [is_container_running, run_command, havail, hps]
  refine ⟨?_, ?_, ?_⟩
  · by_cases hmem : m.container_name ∈ splitNewlines (pyStrip out)
    · cases hp : parsePort m.mt5_port with
      | none => simp [health_check, hicr, hmem, hp]
      | some p =>
        cases hcon : w.connect with
        | result code =>
          simp [health_check, hicr, hmem, hp, hcon, beq_iff_eq]
        | raised msg => simp [health_check, hicr, hmem, hp, hcon]
    · simp [health_check, hicr, hmem]
  · intro hmem
    have hmem2 : m.container_name ∉ splitNewlines (pyStrip out) := by
      simpa using hmem
    simp [health_check, hicr, hmem2]
  · intro p hp hmem
    have hmem2 : m.container_name ∈ splitNewlines (pyStrip out) := by
      simpa using hmem
    cases hcon : w.connect with
    | result code => simp [health_check, hicr, hmem2, hp, hcon]
    | raised msg => simp [health_check, hicr, hmem2, hp, hcon]

/-- Witness for `health_check_characterized`: default configuration in
`wRunning`, where the listing outputs exactly the container name and the
probe accepts, so the check is healthy. -/
theorem health_check_characterized_witness :
    defaultManager.docker_available = true ∧
    wRunning.exec (Cmd.ps defaultManager.container_name) =
      CmdOutcome.completed 0 "mt5_user" "" ∧
    (health_check defaultManager wRunning).ok = true := by
  have H := health_check_characterized defaultManager wRunning "mt5_user" ""
    rfl rfl
  exact ⟨rfl, rfl, H.1.mpr ⟨by decide, 8002, by decide, rfl⟩⟩

end MT5

namespace MT5

/-- True exactly for TCP probe events. -/
def Event.isProbe : Event → Bool
  | .tcpProbe _ _ _ => true
  | _ => false

/-- `_manual_restart` never opens a TCP probe: its trace is runtime commands,
sleeps and the notification only. -/
theorem manual_restart_no_probe (m : Manager) (w : World) (t : Nat) :
    ∀ e ∈ (manual_restart m w t).events, e.isProbe = false := by
  intro e he
  simp only [manual_restart] at he
  split at he
  · rcases stop_mem_exec m w e he with ⟨c, rfl⟩; rfl
  · split at he
    · rcases List.mem_append.mp he with h | h
      · rcases List.mem_append.mp h with h2 | h2
        · rcases stop_mem_exec m w e h2 with ⟨c, rfl⟩; rfl
        · simp at h2; subst h2; rfl
      · rcases start_mem_exec m w e h with ⟨c, rfl⟩; rfl
    · rcases List.mem_append.mp he with h | h
      · rcases List.mem_append.mp h with h2 | h2
        · rcases List.mem_append.mp h2 with h3 | h3
          · rcases stop_mem_exec m w e h3 with ⟨c, rfl⟩; rfl
          · simp at h3; subst h3; rfl
        · rcases start_mem_exec m w e h2 with ⟨c, rfl⟩; rfl
      · simp at h; rcases h with h | h <;> subst h <;> rfl

/-- `restart_container` never opens a TCP probe. -/
theorem restart_container_no_probe (m : Manager) (w : World) (t : Nat) :
    ∀ e ∈ (restart_container m w t).events, e.isProbe = false := by
  intro e he
  simp only [restart_container] at he
  split at he
  · simp at he
  · split at he
    · simp at he; rcases he with h | h | h <;> subst h <;> rfl
    · rcases List.mem_append.mp he with h | h
      · simp at h; subst h; rfl
      · exact manual_restart_no_probe m w t e h

/-- Claim C3: on every monitor tick, the last-restart timestamp is updated —
set to the tick time `now` — exactly when a restart was attempted in that
tick, whether the schedule or a failed health check triggered it, and
regardless of the restart result (the world `w`, which decides every command
outcome, is universally quantified); on a tick with no trigger the manager is
left untouched. -/
theorem last_restart_iff_attempt (m : Manager) (w : World) (now rt : Nat) :
    ((monitor_tick m w now rt).trigger.isSome = true ↔
      (restart_interval ≤ now - m.last_restart ∨
       (health_check m w).ok = false)) ∧
    (monitor_tick m w now rt).manager.last_restart =
      (if (monitor_tick m w now rt).trigger.isSome then now
       else m.last_restart) ∧
    ((monitor_tick m w now rt).trigger = none →
      (monitor_tick m w now rt).manager = m) := by
  by_cases hsh : restart_interval ≤ now - m.last_restart
  · simp [monitor_tick, hsh]
  · by_cases hhc : (health_check m w).ok = false
    · simp [monitor_tick, hsh, hhc]
    · simp [monitor_tick, hsh, hhc]

/-- Claim C4: whenever the elapsed time since the last restart reaches the
restart interval, the tick is exactly one restart invocation attributed to
the schedule trigger, the health check is not evaluated, and in particular no
TCP probe appears anywhere in the tick trace — whatever the health state
would have been. -/
theorem schedule_priority (m : Manager) (w : World) (now rt : Nat)
    (h : restart_interval ≤ now - m.last_restart) :
    monitor_tick m w now rt =
      ⟨{ (restart_container m w rt).manager with last_restart := now },
        some Trigger.scheduled, false,
        (restart_container m w rt).events ++
          [Event.sleep health_check_interval]⟩ ∧
    ∀ host port ts,
      Event.tcpProbe host port ts ∉ (monitor_tick m w now rt).events := by
  have hm : monitor_tick m w now rt =
      ⟨{ (restart_container m w rt).manager with last_restart := now },
        some Trigger.scheduled, false,
        (restart_container m w rt).events ++
          [Event.sleep health_check_interval]⟩ := by
    simp [monitor_tick, restart_container_direct, h]
  refine ⟨hm, ?_⟩
  intro host port ts hmem
  rw [hm] at hmem
  rcases List.mem_append.mp hmem with h2 | h2
  · have := restart_container_no_probe m w rt _ h2
    simp [Event.isProbe] at this
  · simp at h2

/-- Witness for `schedule_priority`: default manager with `last_restart = 0`
at tick time exactly one restart interval later. -/
theorem schedule_priority_witness :
    restart_interval ≤ 43200 - defaultManager.last_restart ∧
    (monitor_tick defaultManager wIdle 43200 7).trigger =
      some Trigger.scheduled ∧
    (monitor_tick defaultManager wIdle 43200 7).healthEvaluated = false := by
  have H := schedule_priority defaultManager wIdle 43200 7 (by decide)
  exact ⟨by decide, by rw [H.1], by rw [H.1]⟩

end MT5

namespace MT5

/-- A world where the native `docker restart` fails but every other command
succeeds and the listing reports nothing running. -/
def wFallback : World :=
  { exec := fun c =>
      match c with
      | .restart _ => .completed 1 "" "cannot restart"
      | _ => .completed 0 "" ""
    connect := .result 0
    vnc_user := "admin"
    vnc_pass := "admin" }

/-- Claim C5: whenever the native restart command fails but the stop and
start sub-operations succeed, the overall restart reports success through the
fallback path, the restart notifier is invoked exactly once in the whole
trace, and that single notification comes immediately after the 30-second
settle delay at the very end of the restart. -/
theorem restart_fallback (m : Manager) (w : World) (t : Nat)
    (havail : m.docker_available = true)
    (hres : (run_command w (Cmd.restart m.container_name)).success = false)
    (hstop : (stop_container m w).ok = true)
    (hstart : (start_container m w).ok = true) :
    (restart_container m w t).ok = true ∧
    (restart_container m w t).events.count Event.notify = 1 ∧
    ∃ pre, (restart_container m w t).events =
      pre ++ [Event.sleep 30, Event.notify] := by
  have hman : manual_restart m w t =
      ⟨true,
        (stop_container m w).events ++ [Event.sleep 5] ++
          (start_container m w).events ++ [Event.sleep 30, Event.notify],
        { m with last_restart := t }⟩ := by
    simp [manual_restart, hstop, hstart]
  have hrc : restart_container m w t =
      ⟨true,
        Event.exec (Cmd.restart m.container_name) ::
          ((stop_container m w).events ++ [Event.sleep 5] ++
            (start_container m w).events ++
            [Event.sleep 30, Event.notify]),
        { m with last_restart := t }⟩ := by
    simp [restart_container, havail, hres, hman]
  have hne_stop : Event.notify ∉ (stop_container m w).events := by
    intro hmem
    rcases stop_mem_exec m w _ hmem with ⟨c, hc⟩
    exact Event.noConfusion hc
  have hne_start : Event.notify ∉ (start_container m w).events := by
    intro hmem
    rcases start_mem_exec m w _ hmem with ⟨c, hc⟩
    exact Event.noConfusion hc
  refine ⟨by rw [hrc], ?_, ?_⟩
  · rw [hrc]
    simp [List.count_cons, List.count_append,
      List.count_eq_zero.mpr hne_stop, List.count_eq_zero.mpr hne_start]
  · refine ⟨Event.exec (Cmd.restart m.container_name) ::
      ((stop_container m w).events ++ [Event.sleep 5] ++
        (start_container m w).events), ?_⟩
    rw [hrc]
    simp

/-- Witness for `restart_fallback`: default configuration in `wFallback`,
where the restart command fails, the listing reports nothing running (so the
stop is the idempotent no-op) and the start command succeeds. -/
theorem restart_fallback_witness :
    defaultManager.docker_available = true ∧
    (run_command wFallback
      (Cmd.restart defaultManager.container_name)).success = false ∧
    (stop_container defaultManager wFallback).ok = true ∧
    (start_container defaultManager wFallback).ok = true ∧
    (restart_container defaultManager wFallback 5).ok = true ∧
    (restart_container defaultManager wFallback 5).events.count
      Event.notify = 1 :=
  have H := restart_fallback defaultManager wFallback 5 (by decide)
    (by decide) (by decide) (by decide)
  ⟨by decide, by decide, by decide, by decide, H.1, H.2.1⟩

/-- A world where the listing reports nothing running, starting the existing
container fails, and removal plus creation succeed. -/
def wCreate : World :=
  { exec := fun c =>
      match c with
      | .start _ => .completed 1 "" "no such container"
      | _ => .completed 0 "" ""
    connect := .result 0
    vnc_user := "admin"
    vnc_pass := "admin" }

/-- The default manager with the configured port overridden to 9000, as by
`MT5_PORT=9000` in the environment. -/
def m9 : Manager := { defaultManager with mt5_port := "9000" }

/-- Claim C2, amended: whenever starting the existing container by name
fails, the start path first removes any stale container of the same name and
then creates a brand-new container from the configured image with the
configured environment — but with the hard-coded port mappings 3001:3000 and
8002:8001 of lines 176-177, so the published host ports are always 3001 and
8002 regardless of the configured port used by the health check. -/
theorem start_fallback_creates (m : Manager) (w : World)
    (havail : m.docker_available = true)
    (hnotrun : (is_container_running m w).ok = false)
    (hstartfail :
      (run_command w (Cmd.start m.container_name)).success = false) :
    start_container m w =
      ⟨(run_command w (create_run_command m w)).success,
        (is_container_running m w).events ++
          [Event.exec (Cmd.start m.container_name),
           Event.exec (Cmd.rmF m.container_name),
           Event.exec (create_run_command m w)]⟩ ∧
    publishedHostPorts (start_container m w).events = ["3001", "8002"] := by
  have h1 : start_container m w =
      ⟨(run_command w (create_run_command m w)).success,
        (is_container_running m w).events ++
          [Event.exec (Cmd.start m.container_name),
           Event.exec (Cmd.rmF m.container_name),
           Event.exec (create_run_command m w)]⟩ := by
    simp [start_container, havail, hnotrun, hstartfail,
      create_and_run_container]
  refine ⟨h1, ?_⟩
  rw [h1, is_container_running_events_avail m w havail]
  simp [publishedHostPorts, create_run_command]

/-- Witness for `start_fallback_creates`: default configuration in `wCreate`,
where nothing is running and `docker start` fails, so the container is
recreated. -/
theorem start_fallback_creates_witness :
    defaultManager.docker_available = true ∧
    (is_container_running defaultManager wCreate).ok = false ∧
    (run_command wCreate
      (Cmd.start defaultManager.container_name)).success = false ∧
    publishedHostPorts (start_container defaultManager wCreate).events =
      ["3001", "8002"] :=
  ⟨by decide, by decide, by decide,
    (start_fallback_creates defaultManager wCreate (by decide) (by decide)
      (by decide)).2⟩

/-- Counterexample to claim C2 as stated: with the port configured to 9000,
the health check probes TCP port 9000, but the container created by the
fallback publishes only host ports 3001 and 8002 — the published port value
is not the one used by the health check. -/
theorem start_create_port_mismatch :
    (health_check m9 wRunning).events =
      [Event.exec (Cmd.ps "mt5_user"),
       Event.tcpProbe "localhost" 9000 5] ∧
    publishedHostPorts (start_container m9 wCreate).events =
      ["3001", "8002"] ∧
    (publishedHostPorts
      (start_container m9 wCreate).events).contains "9000" = false := by
  decide

end MT5
